import Mathlib

/-!
Verification of the Galsim_JAX repository (training scripts `VAE_SD_C.py`,
`VAE_Resnet_train_C.py` and the helper module `galsim_jax/utils.py`).

The numeric tensors of the source are embedded as lists of rationals (for the
pixel-domain script `VAE_SD_C.py`, whose arithmetic is rational) or lists of
reals (for `VAE_Resnet_train_C.py`, whose Gaussian log-densities need `log`).
Python exceptions are embedded as an explicit error type and fallible code
returns `Except`.  External collaborators (the neural encoder/decoder, the
FFT, the PSF convolution, the sampling primitive) are parameters of the
embedded functions: the scripts treat them as opaque pure functions.
-/

/-- The Python exceptions that the embedded code can raise. -/
inductive PyErr : Type where
  /-- `raise NotImplementedError` (unknown noise mode in `loglikelihood_fn` /
  `loss_fn`). -/
  | notImplementedError : PyErr
  /-- `ZeroDivisionError` (Python `%` with zero divisor). -/
  | zeroDivisionError : PyErr
  /-- `raise ValueError` (unknown activation / optimizer name at setup). -/
  | valueError : PyErr
  /-- The wandb artifact registry cannot resolve the `best` alias because no
  checkpoint was ever logged. -/
  | artifactNotFoundError : PyErr
deriving DecidableEq, Repr

instance {ε α : Type} [DecidableEq ε] [DecidableEq α] : DecidableEq (Except ε α)
  | .ok x, .ok y =>
      if h : x = y then .isTrue (by rw [h])
      else .isFalse (by intro hc; injection hc; contradiction)
  | .error x, .error y =>
      if h : x = y then .isTrue (by rw [h])
      else .isFalse (by intro hc; injection hc; contradiction)
  | .ok _, .error _ => .isFalse (by intro hc; cases hc)
  | .error _, .ok _ => .isFalse (by intro hc; cases hc)

/-- Python `a % b`: raises `ZeroDivisionError` when `b = 0` (for the
non-negative integers appearing in the scripts, Python `%` agrees with
`Nat.mod`). -/
def pyMod (a b : Nat) : Except PyErr Nat :=
  if b = 0 then .error .zeroDivisionError else .ok (a % b)

/-- Mean of a list, `jnp.mean` on a one-dimensional array. -/
def listMean (l : List ℚ) : ℚ := l.sum / l.length

/-! ## `galsim_jax/utils.py`: the piecewise learning-rate schedule -/

/-- `steps_per_epoch = 12000 // 28` from `lr_schedule`. -/
def steps_per_epoch : ℕ := 12000 / 28

/-- `boundaries = jnp.array((40, 100, 160)) * steps_per_epoch`. -/
def lrBoundaries : List ℕ :=
  [40 * steps_per_epoch, 100 * steps_per_epoch, 160 * steps_per_epoch]

/-- `values = jnp.array([1.0, 0.1, 0.01, 0.001])`. -/
def lrValues : List ℚ := [1.0, 0.1, 0.01, 0.001]

/-- `lr_schedule` from `galsim_jax/utils.py`: `index = jnp.sum(boundaries < step)`
followed by `jnp.take(values, index)`.  The index is always at most 3, so the
`getD` default is never consulted. -/
def lr_schedule (step : ℕ) : ℚ :=
  lrValues.getD (lrBoundaries.countP (fun b => decide (b < step))) 0

/-! ## `VAE_SD_C.py`: likelihood, loss, setup -/

/-- One batch element of the `VAE_SD_C.py` data pipeline: observed image,
real/imaginary parts of the Fourier-domain PSF, noise power spectrum `ps` and
the per-example noise descriptor `noise_std` (images are flattened to lists). -/
structure ExampleSD : Type where
  image : List ℚ
  kpsfReal : List ℚ
  kpsfImag : List ℚ
  ps : List ℚ
  noiseStd : List ℚ

/-- `loglikelihood_fn` of `VAE_SD_C.py` (per example, before `jax.vmap`).
The Fourier branch combines `jnp.fft.rfft2`, `sqrt`, `exp` and the complex
modulus; that whole branch value is the external collaborator `fourierLL`.
The Pixel branch is the literal source formula
`-0.5 * (jnp.abs(x - y) ** 2).sum() / 0.005 ** 2` — note that the supplied
`noise` argument is not used by it.  An unknown `type` string raises
`NotImplementedError`. -/
def loglikelihood_fn (fourierLL : List ℚ → List ℚ → List ℚ → ℚ)
    (ty : String) (x y noise : List ℚ) : Except PyErr ℚ :=
  if ty = "Fourier" then .ok (fourierLL x y noise)
  else if ty = "Pixel" then
    .ok (-(0.5 : ℚ) * (List.zipWith (fun a b => (a - b) ^ 2) x y).sum / (0.005 : ℚ) ^ 2)
  else .error .notImplementedError

/-- The KL quantity of `loss_fn` in `VAE_SD_C.py` for one batch element:
`(log_prob - prior.log_prob(code)).sum((-2, -1))` where
`log_prob = posterior.log_prob(code)`.  The autoencoder application
(`Autoencoder.apply`) and the two tfp log-density evaluations are the opaque
collaborators `applyAE`, `logProb` and `priorLogProb`. -/
def klExampleSD {Pa Rng Post : Type}
    (applyAE : Pa → Rng → List ℚ → List ℚ × Post × List ℚ)
    (logProb : Post → List ℚ → List ℚ)
    (priorLogProb : List ℚ → List ℚ)
    (params : Pa) (rngKey : Rng) (ex : ExampleSD) : ℚ :=
  let (_, posterior, code) := applyAE params rngKey ex.image
  (List.zipWith (fun a b => a - b) (logProb posterior code) (priorLogProb code)).sum

/-- The per-example KL terms that `loss_fn` of `VAE_SD_C.py` scales by
`reg_term`. -/
def klTermSD {Pa Rng Post : Type}
    (applyAE : Pa → Rng → List ℚ → List ℚ × Post × List ℚ)
    (logProb : Post → List ℚ → List ℚ)
    (priorLogProb : List ℚ → List ℚ)
    (params : Pa) (rngKey : Rng) (batch : List ExampleSD) : List ℚ :=
  batch.map (klExampleSD applyAE logProb priorLogProb params rngKey)

/-- The per-example body of `loss_fn` in `VAE_SD_C.py`: autoencode, convolve
with the Fourier PSF (`convolve_kpsf`, an opaque collaborator), dispatch on the
noise mode exactly as lines 218–225 do (the vmapped `loglikelihood_fn` was
already partially applied to the same mode string), and pair the log-likelihood
with the KL quantity. -/
def exampleTermsSD {Pa Rng Post : Type}
    (applyAE : Pa → Rng → List ℚ → List ℚ × Post × List ℚ)
    (logProb : Post → List ℚ → List ℚ)
    (priorLogProb : List ℚ → List ℚ)
    (convolve_kpsf : List ℚ → List ℚ → List ℚ → List ℚ)
    (fourierLL : List ℚ → List ℚ → List ℚ → ℚ)
    (noiseMode : String)
    (params : Pa) (rngKey : Rng) (ex : ExampleSD) : Except PyErr (ℚ × ℚ) := do
  let (q, _, _) := applyAE params rngKey ex.image
  let p := convolve_kpsf q ex.kpsfReal ex.kpsfImag
  let ll ←
    if noiseMode = "Fourier" then loglikelihood_fn fourierLL noiseMode ex.image p ex.ps
    else if noiseMode = "Pixel" then loglikelihood_fn fourierLL noiseMode ex.image p ex.noiseStd
    else .error .notImplementedError
  pure (ll, klExampleSD applyAE logProb priorLogProb params rngKey ex)

/-- `loss_fn` of `VAE_SD_C.py`:
`elbo = log_likelihood - reg_term * kl`, returning
`(-jnp.mean(elbo), -jnp.mean(log_likelihood))`. -/
def loss_fn_SD {Pa Rng Post : Type}
    (applyAE : Pa → Rng → List ℚ → List ℚ × Post × List ℚ)
    (logProb : Post → List ℚ → List ℚ)
    (priorLogProb : List ℚ → List ℚ)
    (convolve_kpsf : List ℚ → List ℚ → List ℚ → List ℚ)
    (fourierLL : List ℚ → List ℚ → List ℚ → ℚ)
    (noiseMode : String)
    (params : Pa) (rngKey : Rng) (batch : List ExampleSD) (regTerm : ℚ) :
    Except PyErr (ℚ × ℚ) := do
  let terms ← batch.mapM
    (exampleTermsSD applyAE logProb priorLogProb convolve_kpsf fourierLL noiseMode params rngKey)
  let elbo := terms.map (fun t => t.1 - regTerm * t.2)
  pure (-(listMean elbo), -(listMean (terms.map (fun t => t.1))))

/-- The keys of the `activation_functions` dictionary in
`get_activation_fn` (`galsim_jax/utils.py`). -/
def activationNames : List String :=
  ["linear", "relu", "relu6", "elu", "gelu", "prelu", "leaky_relu", "hardtanh",
   "sigmoid", "tanh", "log_sigmoid", "softplus", "softsign", "swish"]

/-- `get_activation_fn` of `galsim_jax/utils.py`: an unknown name raises
`ValueError`; the returned network function is opaque, so only the validated
name is kept. -/
def get_activation_fn (name : String) : Except PyErr String :=
  if name ∈ activationNames then .ok name else .error .valueError

/-- The keys of the `optimizer` dictionary in `new_optimizer`
(`galsim_jax/utils.py`). -/
def optimizerNames : List String := ["adam", "adamw", "adafactor"]

/-- `new_optimizer` of `galsim_jax/utils.py`: an unknown name raises
`ValueError`; the optax object is opaque, so only the validated name is kept. -/
def new_optimizer (name : String) : Except PyErr String :=
  if name ∈ optimizerNames then .ok name else .error .valueError

/-- The setup phase of `main` in `VAE_SD_C.py` before the training loop:
`get_activation_fn(FLAGS.act_fn)` (line 138), `new_optimizer(FLAGS.opt, ...)`
(line 162), and the partial application
`loglikelihood_fn = partial(loglikelihood_fn, type=FLAGS.noise)` (line 193),
which merely binds the noise-mode string without inspecting it.  The returned
value is the bound noise mode. -/
def setupSD (actName optName noiseName : String) : Except PyErr String := do
  let _ ← get_activation_fn actName
  let _ ← new_optimizer optName
  pure noiseName

/-! ## `VAE_Resnet_train_C.py`: loss function over the reals -/

/-- Per-coordinate KL divergence of a diagonal Gaussian `N(loc, scale)` from
the standard normal `N(0, 1)`, summed over coordinates.  Modelled from tfp
(external library): `tfd.kl_divergence` of two `MultivariateNormalDiag`
distributions, the second being `tfd.MultivariateNormalDiag(jnp.zeros(...))`
with its default unit scale. -/
noncomputable def klDiagNormal (loc scale : List ℝ) : ℝ :=
  (List.zipWith
    (fun m s => Real.log (1 / s) + (s ^ 2 + m ^ 2) / 2 - 1 / 2) loc scale).sum

/-- Log-density of a diagonal Gaussian with per-example scalar scale, summed
over coordinates.  Modelled from tfp (external library):
`MultivariateNormalDiag(loc, scale_diag=std).log_prob(x)`. -/
noncomputable def logProbDiagNormal (loc : List ℝ) (scale : ℝ) (x : List ℝ) : ℝ :=
  (List.zipWith
    (fun m xv => -(1 / 2) * ((xv - m) / scale) ^ 2 - Real.log scale
      - (1 / 2) * Real.log (2 * Real.pi)) loc x).sum

/-- One batch element of the `VAE_Resnet_train_C.py` pipeline: observed image,
spatial PSF, and the scalar `noise_std` (reshaped to broadcast over the image
in the source). -/
structure ExampleR : Type where
  image : List ℝ
  psf : List ℝ
  noiseStd : ℝ

/-- The predicted observation of `loss_fn` in `VAE_Resnet_train_C.py` for one
batch element: encode (`Encoder.apply`), sample the posterior, decode
(`Decoder.apply`), convolve with the PSF.  The four collaborators are opaque
parameters. -/
def predExampleResnet {PE PD Rng : Type}
    (encApply : PE → List ℝ → List ℝ × List ℝ)
    (sample : Rng → List ℝ × List ℝ → List ℝ)
    (decApply : PD → List ℝ → List ℝ)
    (convolve : List ℝ → List ℝ → List ℝ)
    (params : PE × PD) (rngKey : Rng) (ex : ExampleR) : List ℝ :=
  convolve (decApply params.2 (sample rngKey (encApply params.1 ex.image))) ex.psf

/-- The KL quantity of `loss_fn` in `VAE_Resnet_train_C.py` (lines 193–196)
for one batch element:
`tfd.kl_divergence(p, tfd.MultivariateNormalDiag(jnp.zeros((1, 128, 128, 1))))`
where `p = tfd.MultivariateNormalDiag(loc=p, scale_diag=std)` is built from the
convolved decoder output (its scale is the broadcast per-example `noise_std`). -/
noncomputable def klExampleResnet {PE PD Rng : Type}
    (encApply : PE → List ℝ → List ℝ × List ℝ)
    (sample : Rng → List ℝ × List ℝ → List ℝ)
    (decApply : PD → List ℝ → List ℝ)
    (convolve : List ℝ → List ℝ → List ℝ)
    (params : PE × PD) (rngKey : Rng) (ex : ExampleR) : ℝ :=
  let p := predExampleResnet encApply sample decApply convolve params rngKey ex
  klDiagNormal p (List.replicate p.length ex.noiseStd)

/-- The per-example KL terms that `loss_fn` of `VAE_Resnet_train_C.py` scales
by `reg_term`. -/
noncomputable def klTermResnet {PE PD Rng : Type}
    (encApply : PE → List ℝ → List ℝ × List ℝ)
    (sample : Rng → List ℝ × List ℝ → List ℝ)
    (decApply : PD → List ℝ → List ℝ)
    (convolve : List ℝ → List ℝ → List ℝ)
    (params : PE × PD) (rngKey : Rng) (batch : List ExampleR) : List ℝ :=
  batch.map (klExampleResnet encApply sample decApply convolve params rngKey)

/-- The per-example log-likelihood `p.log_prob(x)` of `loss_fn` in
`VAE_Resnet_train_C.py` (line 199). -/
noncomputable def llExampleResnet {PE PD Rng : Type}
    (encApply : PE → List ℝ → List ℝ × List ℝ)
    (sample : Rng → List ℝ × List ℝ → List ℝ)
    (decApply : PD → List ℝ → List ℝ)
    (convolve : List ℝ → List ℝ → List ℝ)
    (params : PE × PD) (rngKey : Rng) (ex : ExampleR) : ℝ :=
  logProbDiagNormal
    (predExampleResnet encApply sample decApply convolve params rngKey ex)
    ex.noiseStd ex.image

/-- Mean of a list of reals, `jnp.mean`. -/
noncomputable def listMeanR (l : List ℝ) : ℝ := l.sum / l.length

/-- `loss_fn` of `VAE_Resnet_train_C.py` (lines 169–207):
`elbo = log_likelihood - reg_term * kl`, returning
`(-jnp.mean(elbo), -jnp.mean(log_likelihood))`. -/
noncomputable def loss_fn_Resnet {PE PD Rng : Type}
    (encApply : PE → List ℝ → List ℝ × List ℝ)
    (sample : Rng → List ℝ × List ℝ → List ℝ)
    (decApply : PD → List ℝ → List ℝ)
    (convolve : List ℝ → List ℝ → List ℝ)
    (params : PE × PD) (rngKey : Rng) (batch : List ExampleR) (regTerm : ℝ) :
    ℝ × ℝ :=
  let lls := batch.map (llExampleResnet encApply sample decApply convolve params rngKey)
  let kls := klTermResnet encApply sample decApply convolve params rngKey batch
  let elbo := List.zipWith (fun l k => l - regTerm * k) lls kls
  (-(listMeanR elbo), -(listMeanR lls))

/-! ## The training loop of both scripts

The per-step `update` call (gradient step) is an opaque collaborator
`upd : Nat → P → ℚ × P` mapping the step index and current parameters to the
step's loss and the post-update parameters (the fresh rng sub-key and the next
batch drawn at a step are folded into the step index, on which `update` is
deterministic).  The wandb artifact registry is embedded as the list of
`(step, params)` pairs passed to `save_checkpoint`, most recent last; the
`best` alias resolves to the most recent entry. -/

/-- The per-step bookkeeping state of `main` in both training scripts. -/
structure LoopState (P : Type) : Type where
  params : P
  best : ℚ
  losses : List ℚ
  saves : List (Nat × P)
  evalSteps : List Nat
deriving DecidableEq

/-- Lines 292–296 of `VAE_Resnet_train_C.py`: `if loss < best_eval_loss:`
update the best loss and, `if best_eval_loss < 1:`, persist a checkpoint for
the current step. -/
def checkpointStepResnet {P : Type} (step : Nat) (loss : ℚ) (p : P)
    (best : ℚ) (saves : List (Nat × P)) : ℚ × List (Nat × P) :=
  if loss < best then
    let best := loss
    if best < 1 then (best, saves ++ [(step, p)]) else (best, saves)
  else (best, saves)

/-- Lines 332–336 of `VAE_SD_C.py`: `if loss < best_eval_loss:` update the
best loss and persist a checkpoint (the `if best_eval_loss < 0:` threshold is
commented out in the source). -/
def checkpointStepSD {P : Type} (step : Nat) (loss : ℚ) (p : P)
    (best : ℚ) (saves : List (Nat × P)) : ℚ × List (Nat × P) :=
  if loss < best then (loss, saves ++ [(step, p)]) else (best, saves)

/-- One iteration of the training loop of either script: run `update`, append
the loss to the trace, apply the checkpoint policy to the post-update
parameters, then test `step % (config.steps // 50) == 0` (Python `%`, which
raises `ZeroDivisionError` on a zero cadence) and record an evaluation pass.
The test-split bookkeeping inside the evaluation block touches no training
state and is recorded only as the step number. -/
def trainStep {P : Type}
    (policy : Nat → ℚ → P → ℚ → List (Nat × P) → ℚ × List (Nat × P))
    (upd : Nat → P → ℚ × P) (totalSteps : Nat) (st : LoopState P) (step : Nat) :
    Except PyErr (LoopState P) := do
  let (loss, newParams) := upd step st.params
  let (best, saves) := policy step loss newParams st.best st.saves
  let st1 : LoopState P := ⟨newParams, best, st.losses ++ [loss], saves, st.evalSteps⟩
  let r ← pyMod step (totalSteps / 50)
  if r = 0 then pure { st1 with evalSteps := st1.evalSteps ++ [step] } else pure st1

/-- Run the training loop over a list of step indices. -/
def runSteps {P : Type}
    (policy : Nat → ℚ → P → ℚ → List (Nat × P) → ℚ × List (Nat × P))
    (upd : Nat → P → ℚ × P) (totalSteps : Nat) :
    List Nat → LoopState P → Except PyErr (LoopState P)
  | [], st => .ok st
  | k :: ks, st =>
      (trainStep policy upd totalSteps st k).bind (runSteps policy upd totalSteps ks)

/-- The loop state before the first step: `best_eval_loss = 1e6`, empty
traces. -/
def initLoopState {P : Type} (p0 : P) : LoopState P := ⟨p0, 1000000, [], [], []⟩

/-- `for step in tqdm(range(1, config.steps + 1))`. -/
def runLoop {P : Type}
    (policy : Nat → ℚ → P → ℚ → List (Nat × P) → ℚ × List (Nat × P))
    (upd : Nat → P → ℚ × P) (totalSteps : Nat) (p0 : P) :
    Except PyErr (LoopState P) :=
  runSteps policy upd totalSteps (List.range' 1 totalSteps) (initLoopState p0)

/-- The training loop of `VAE_Resnet_train_C.py`. -/
def runLoopResnet {P : Type} (upd : Nat → P → ℚ × P) (totalSteps : Nat) (p0 : P) :
    Except PyErr (LoopState P) :=
  runLoop checkpointStepResnet upd totalSteps p0

/-- The training loop of `VAE_SD_C.py`. -/
def runLoopSD {P : Type} (upd : Nat → P → ℚ × P) (totalSteps : Nat) (p0 : P) :
    Except PyErr (LoopState P) :=
  runLoop checkpointStepSD upd totalSteps p0

/-- The checkpoint policy of a script applied along a given loss trace (step
numbers starting at 1, parameters irrelevant to the policy itself), starting
from `best_eval_loss = 1e6` and an empty registry. -/
def runPolicyAux
    (policy : Nat → ℚ → Unit → ℚ → List (Nat × Unit) → ℚ × List (Nat × Unit)) :
    Nat → ℚ → List (Nat × Unit) → List ℚ → ℚ × List (Nat × Unit)
  | _, best, saves, [] => (best, saves)
  | step, best, saves, l :: ls =>
      let (b, s) := policy step l () best saves
      runPolicyAux policy (step + 1) b s ls

/-- The `VAE_Resnet_train_C.py` checkpoint policy run over a loss trace. -/
def runPolicyResnet (trace : List ℚ) : ℚ × List (Nat × Unit) :=
  runPolicyAux checkpointStepResnet 1 1000000 [] trace

/-- The `VAE_SD_C.py` checkpoint policy run over a loss trace. -/
def runPolicySD (trace : List ℚ) : ℚ × List (Nat × Unit) :=
  runPolicyAux checkpointStepSD 1 1000000 [] trace

/-- The step the `best` alias refers to after a run: the most recently saved
checkpoint (each save overwrites the `best` alias). -/
def bestAlias {P : Type} (saves : List (Nat × P)) : Option Nat :=
  saves.getLast?.map Prod.fst

/-- `load_checkpoint` of `galsim_jax/utils.py`.  Modelled from the spec: the
external wandb artifact registry resolves the `best` alias of a run to the
most recently saved qualifying blob, and surfaces an error when no checkpoint
was ever logged for the run. -/
def load_best_checkpoint {P : Type} (saves : List (Nat × P)) : Except PyErr P :=
  match saves.getLast? with
  | none => .error .artifactNotFoundError
  | some (_, p) => .ok p

/-- Finalization of `VAE_Resnet_train_C.py` (line 331):
`params = load_checkpoint("checkpoint.msgpack", params)`. -/
def finalizeResnet {P : Type} (st : LoopState P) : Except PyErr P :=
  load_best_checkpoint st.saves

/-- Finalization of `VAE_SD_C.py` (line 371): the
`params = load_checkpoint(...)` line is commented out, so the parameters in
scope — those of the last training step — are used for final reporting and
prediction. -/
def finalizeSD {P : Type} (st : LoopState P) : Except PyErr P :=
  .ok st.params

/-- The `VAE_Resnet_train_C.py` training loop followed by its finalization. -/
def mainResnet {P : Type} (upd : Nat → P → ℚ × P) (totalSteps : Nat) (p0 : P) :
    Except PyErr P :=
  (runLoopResnet upd totalSteps p0).bind finalizeResnet

/-- The `VAE_SD_C.py` training loop followed by its finalization. -/
def mainSD {P : Type} (upd : Nat → P → ℚ × P) (totalSteps : Nat) (p0 : P) :
    Except PyErr P :=
  (runLoopSD upd totalSteps p0).bind finalizeSD

/-- The parameters held by the training loop after `k` steps: `paramsAt k` is
the post-update tree of step `k` (and the tree whose forward pass produces the
loss recorded at step `k + 1`). -/
def paramsAt {P : Type} (upd : Nat → P → ℚ × P) (p0 : P) : Nat → P
  | 0 => p0
  | k + 1 => (upd (k + 1) (paramsAt upd p0 k)).2

/-! ## Checkpoint byte format (`save_checkpoint` / `load_checkpoint`)

`save_checkpoint` of `galsim_jax/utils.py` writes
`msgpack_serialize(to_state_dict(state))` and `load_checkpoint` restores it
with `from_bytes(state, byte_data)`.  Modelled from the spec: the byte format
itself lives in the external `flax.serialization` library, and the spec only
requires "a length-prefixed or self-describing serialization of the nested
Parameter Tree sufficient to round-trip exactly".  The model below is a
length-prefixed token stream over a nested tree of named integer tensors, and
`from_bytes` deserializes into the structure of the supplied template,
failing when the stored structure disagrees with it. -/

mutual
/-- A parameter tree: nested mapping from layer/module name to numeric
tensors (tensor values are exact integers, standing for the raw bit patterns
that msgpack stores and restores unchanged). -/
inductive PTree : Type where
  | leaf : List Int → PTree
  | node : PForest → PTree
/-- The named children of an interior parameter-tree node. -/
inductive PForest : Type where
  | nil : PForest
  | cons : String → PTree → PForest → PForest
end

/-- Number of children of a forest. -/
def forestLen : PForest → Nat
  | .nil => 0
  | .cons _ _ rf => forestLen rf + 1

/-- Zigzag encoding of an integer tensor entry as a token. -/
def encInt (i : Int) : Nat :=
  if 0 ≤ i then 2 * i.toNat else 2 * (-i).toNat - 1

/-- Zigzag decoding of a token. -/
def decInt (n : Nat) : Int :=
  if n % 2 = 0 then ((n / 2 : Nat) : Int) else -(((n + 1) / 2 : Nat) : Int)

/-- A name, length-prefixed, as a token stream. -/
def encName (s : String) : List Nat :=
  s.data.length :: s.data.map Char.toNat

mutual
/-- Serialize a parameter tree: tag, length prefix, payload. -/
def serT : PTree → List Nat
  | .leaf vals => 0 :: vals.length :: vals.map encInt
  | .node f => 1 :: forestLen f :: serF f
/-- Serialize the children of a node in order. -/
def serF : PForest → List Nat
  | .nil => []
  | .cons name t rf => encName name ++ serT t ++ serF rf
end

mutual
/-- Deserialize a tree guided by the template's structure (as
`flax.serialization.from_bytes` restores into the target's state dict),
returning the restored tree and the unconsumed tokens; `none` when the stored
structure disagrees with the template. -/
def parseT : PTree → List Nat → Option (PTree × List Nat)
  | .leaf vals, 0 :: n :: rest =>
      if n = vals.length ∧ n ≤ rest.length then
        some (.leaf ((rest.take n).map decInt), rest.drop n)
      else none
  | .node f, 1 :: n :: rest =>
      if n = forestLen f then
        (parseF f rest).map (fun p => (.node p.1, p.2))
      else none
  | _, _ => none
/-- Deserialize the children of a node guided by the template forest. -/
def parseF : PForest → List Nat → Option (PForest × List Nat)
  | .nil, rest => some (.nil, rest)
  | .cons name t rf, input =>
      if input.take (encName name).length = encName name then
        match parseT t (input.drop (encName name).length) with
        | some (t', r) =>
            (parseF rf r).map (fun p => (.cons name t' p.1, p.2))
        | none => none
      else none
end

/-- `msgpack_serialize(to_state_dict(state))` in `save_checkpoint`. -/
def msgpack_serialize (state : PTree) : List Nat := serT state

/-- `from_bytes(state, byte_data)` in `load_checkpoint`: deserialize against
the template `state`, requiring the whole blob to be consumed. -/
def from_bytes (state : PTree) (bytes : List Nat) : Option PTree :=
  (parseT state bytes).bind (fun p => if p.2 = [] then some p.1 else none)

/-- `save_checkpoint` of `galsim_jax/utils.py`, reduced to the bytes it
persists (the file write and the wandb artifact logging are external I/O). -/
def save_checkpoint (state : PTree) : List Nat := msgpack_serialize state

/-- `load_checkpoint` of `galsim_jax/utils.py`, reduced to deserializing the
persisted bytes against the template `state`. -/
def load_checkpoint (bytes : List Nat) (state : PTree) : Option PTree :=
  from_bytes state bytes

/-! ## Theorems -/

theorem decInt_encInt (i : Int) : decInt (encInt i) = i := by
  unfold encInt decInt
  split_ifs <;> omega

mutual
theorem parse_serT : ∀ (t : PTree) (rest : List Nat), parseT t (serT t ++ rest) = some (t, rest)
  | .leaf vals, rest => by
      have hlen : (vals.map encInt).length = vals.length := List.length_map vals encInt
      have hmap : ∀ l : List Int, (l.map encInt).map decInt = l := by
        intro l
        induction l with
        | nil => rfl
        | cons a l ih => simp [decInt_encInt, ih]
      simp [serT, parseT, List.length_append, List.take_left' hlen, List.drop_left' hlen, hmap]
  | .node f, rest => by
      simp [serT, parseT, parse_serF f rest]
theorem parse_serF : ∀ (f : PForest) (rest : List Nat), parseF f (serF f ++ rest) = some (f, rest)
  | .nil, rest => by simp [serF, parseF]
  | .cons name t rf, rest => by
      have h1 := parse_serT t (serF rf ++ rest)
      have h2 := parse_serF rf rest
      simp [serF, parseF, List.append_assoc, List.take_left, List.drop_left, h1, h2]
end

/-- **C8** (confirmed).  Checkpoint round-trip: for every parameter tree,
deserializing the bytes produced by `save_checkpoint` against the same tree as
template (`load_checkpoint` after `save_checkpoint`) returns a parameter tree
bit-for-bit equal to the original, for arbitrary parameter-tree shapes. -/
theorem c8_checkpoint_roundtrip (t : PTree) :
    load_checkpoint (save_checkpoint t) t = some t := by
  have h := parse_serT t []
  rw [List.append_nil] at h
  simp [load_checkpoint, from_bytes, save_checkpoint, msgpack_serialize, h]

theorem zipWith_sq_sub_self (x : List ℚ) :
    (List.zipWith (fun a b => (a - b) ^ 2) x x).sum = 0 := by
  induction x with
  | nil => rfl
  | cons a l ih => simp [ih]

/-- **C1** (confirmed).  The pixel-mode log-likelihood of `VAE_SD_C.py`
returns `-0.5 * sum((observed - predicted)^2) / std^2` with the fixed constant
`std = 0.005`; the supplied noise descriptor is ignored (the result is the
same for any two noise descriptors), and for `observed == predicted` the
result is exactly `0` for any noise descriptor. -/
theorem c1_pixel_loglikelihood (fourierLL : List ℚ → List ℚ → List ℚ → ℚ)
    (x y noise noise' : List ℚ) :
    loglikelihood_fn fourierLL "Pixel" x y noise
        = .ok (-(0.5 : ℚ) * (List.zipWith (fun a b => (a - b) ^ 2) x y).sum / (0.005 : ℚ) ^ 2)
      ∧ loglikelihood_fn fourierLL "Pixel" x y noise
        = loglikelihood_fn fourierLL "Pixel" x y noise'
      ∧ loglikelihood_fn fourierLL "Pixel" x x noise = .ok 0 := by
  refine ⟨rfl, rfl, ?_⟩
  simp [loglikelihood_fn, zipWith_sq_sub_self]

theorem lr_schedule_cases (step : ℕ) :
    lr_schedule step =
      if 17120 < step then
        (if 42800 < step then (if 68480 < step then 0.001 else 0.01) else 0.1)
      else 1 := by
  have hb : lrBoundaries = [17120, 42800, 68480] := by decide
  have hc : lrBoundaries.countP (fun b => decide (b < step)) =
      if 17120 < step then (if 42800 < step then (if 68480 < step then 3 else 2) else 1)
      else 0 := by
    rw [hb]
    by_cases h1 : 17120 < step <;> by_cases h2 : 42800 < step <;>
      by_cases h3 : 68480 < step <;>
      simp [List.countP_cons, List.countP_nil, h1, h2, h3] <;> omega
  unfold lr_schedule
  rw [hc]
  split_ifs <;> norm_num [lrValues]

/-- **C9** (confirmed).  Piecewise schedule monotonicity: for steps `s ≤ t`
the multiplier of `lr_schedule` at `t` is at most the multiplier at `s`, every
returned multiplier is one of the configured table values
`{1.0, 0.1, 0.01, 0.001}`, and `1.0` is returned before the first epoch
boundary (`40 * steps_per_epoch` steps). -/
theorem c9_lr_schedule (s t : ℕ) (hst : s ≤ t) :
    lr_schedule t ≤ lr_schedule s ∧ lr_schedule s ∈ lrValues
      ∧ (s < 40 * steps_per_epoch → lr_schedule s = 1) := by
  refine ⟨?_, ?_, ?_⟩
  · rw [lr_schedule_cases s, lr_schedule_cases t]
    split_ifs <;> first | (exfalso; omega) | norm_num
  · rw [lr_schedule_cases s]
    split_ifs <;> norm_num [lrValues]
  · intro h
    have hs : ¬ 17120 < s := by
      unfold steps_per_epoch at h
      omega
    rw [lr_schedule_cases s, if_neg hs]

/-- Witness for `c9_lr_schedule` at `s = 100`, `t = 20000`. -/
theorem c9_lr_schedule_witness :
    lr_schedule 20000 ≤ lr_schedule 100 ∧ lr_schedule 100 ∈ lrValues
      ∧ (100 < 40 * steps_per_epoch → lr_schedule 100 = 1) :=
  c9_lr_schedule 100 20000 (by norm_num)

theorem zipWith_map_same {α β γ δ : Type} (f : β → γ → δ) (g : α → β) (h : α → γ)
    (l : List α) :
    List.zipWith f (l.map g) (l.map h) = l.map (fun x => f (g x) (h x)) := by
  induction l with
  | nil => rfl
  | cons a l ih => simp [ih]

/-- **C2** (confirmed).  With `reg_coeff = 0` the ELBO loss of both scripts
equals exactly the negative mean log-likelihood (its auxiliary output): the KL
term contributes exactly zero regardless of the posterior/prior values, so the
objective degenerates to a pure reconstruction objective. -/
theorem c2_reg_zero_pure_reconstruction {Pa Rng Post PE PD RngR : Type}
    (applyAE : Pa → Rng → List ℚ → List ℚ × Post × List ℚ)
    (logProb : Post → List ℚ → List ℚ)
    (priorLogProb : List ℚ → List ℚ)
    (convolve_kpsf : List ℚ → List ℚ → List ℚ → List ℚ)
    (fourierLL : List ℚ → List ℚ → List ℚ → ℚ)
    (noiseMode : String) (params : Pa) (rngKey : Rng) (batch : List ExampleSD)
    (encApply : PE → List ℝ → List ℝ × List ℝ)
    (sample : RngR → List ℝ × List ℝ → List ℝ)
    (decApply : PD → List ℝ → List ℝ)
    (convolve : List ℝ → List ℝ → List ℝ)
    (paramsR : PE × PD) (rngKeyR : RngR) (batchR : List ExampleR) :
    (loss_fn_SD applyAE logProb priorLogProb convolve_kpsf fourierLL noiseMode
        params rngKey batch 0).map Prod.fst
      = (loss_fn_SD applyAE logProb priorLogProb convolve_kpsf fourierLL noiseMode
        params rngKey batch 0).map Prod.snd
    ∧ (loss_fn_Resnet encApply sample decApply convolve paramsR rngKeyR batchR 0).1
      = (loss_fn_Resnet encApply sample decApply convolve paramsR rngKeyR batchR 0).2 := by
  constructor
  · unfold loss_fn_SD
    cases h : batch.mapM (exampleTermsSD applyAE logProb priorLogProb convolve_kpsf
        fourierLL noiseMode params rngKey) with
    | error e => simp [h, Except.map]
    | ok terms => simp [h, Except.map]
  · unfold loss_fn_Resnet klTermResnet
    dsimp only
    rw [zipWith_map_same]
    simp

/-- **C4** counterexample.  The claim fails on `VAE_SD_C.py`: its checkpoint
block (lines 332–336) has the activation-threshold check commented out, so on
the loss trace `[5.0, 2.0, 3.0, 0.8, 0.9]` three checkpoint saves occur (at
steps 1, 2 and 4), not exactly one. -/
theorem c4_counterexample :
    (runPolicySD [5, 2, 3, 0.8, 0.9]).2 = [(1, ()), (2, ()), (4, ())]
      ∧ (runPolicySD [5, 2, 3, 0.8, 0.9]).2.length ≠ 1 := by
  constructor
  · norm_num [runPolicySD, runPolicyAux, checkpointStepSD]
  · norm_num [runPolicySD, runPolicyAux, checkpointStepSD]

/-- **C4** (corrected).  In `VAE_Resnet_train_C.py` a checkpoint is persisted
at a step exactly when that step's loss is strictly below the running best
AND the new best loss is below the activation threshold `1.0`; on the trace
`[5.0, 2.0, 3.0, 0.8, 0.9]` exactly one save occurs (at step 4, the step
producing `0.8`) and the `best` alias afterwards refers to step 4.  In
`VAE_SD_C.py` the threshold check is commented out: a checkpoint is persisted
exactly when the loss is strictly below the running best, so the same trace
produces three saves (steps 1, 2, 4), the `best` alias still referring to
step 4. -/
theorem c4_amended {P : Type} (step : Nat) (loss : ℚ) (p : P) (best : ℚ)
    (saves : List (Nat × P)) :
    ((checkpointStepResnet step loss p best saves).2 = saves ++ [(step, p)]
        ↔ loss < best ∧ loss < 1)
      ∧ ((checkpointStepSD step loss p best saves).2 = saves ++ [(step, p)]
        ↔ loss < best)
      ∧ (runPolicyResnet [5, 2, 3, 0.8, 0.9]).2 = [(4, ())]
      ∧ bestAlias (runPolicyResnet [5, 2, 3, 0.8, 0.9]).2 = some 4
      ∧ (runPolicySD [5, 2, 3, 0.8, 0.9]).2 = [(1, ()), (2, ()), (4, ())]
      ∧ bestAlias (runPolicySD [5, 2, 3, 0.8, 0.9]).2 = some 4 := by
  refine ⟨?_, ?_, ?_, ?_, ?_, ?_⟩
  · unfold checkpointStepResnet
    by_cases h1 : loss < best <;> by_cases h2 : loss < 1 <;> simp [h1, h2]
  · unfold checkpointStepSD
    by_cases h1 : loss < best <;> simp [h1]
  · norm_num [runPolicyResnet, runPolicyAux, checkpointStepResnet]
  · norm_num [bestAlias, runPolicyResnet, runPolicyAux, checkpointStepResnet]
  · norm_num [runPolicySD, runPolicyAux, checkpointStepSD]
  · norm_num [bestAlias, runPolicySD, runPolicyAux, checkpointStepSD]

/-- **C5** counterexample.  The claim fails on `VAE_SD_C.py`: its reload of
the best checkpoint (line 371) is commented out.  In a 50-step run whose loss
is constantly `2e6` (never below the `1e6` sentinel) no checkpoint is ever
persisted, yet finalization succeeds with the last-step parameters instead of
surfacing a "no checkpoint available" failure. -/
theorem c5_counterexample :
    (runLoopSD (fun _ n => ((2000000 : ℚ), n + 1)) 50 (0 : Nat)).map (fun st => st.saves)
        = .ok []
      ∧ mainSD (fun _ n => ((2000000 : ℚ), n + 1)) 50 (0 : Nat) = .ok 50 := by
  constructor
  · decide
  · decide

/-- **C5** (corrected).  In `VAE_Resnet_train_C.py` finalization reloads the
best-checkpoint parameters — the most recently persisted blob — and surfaces a
"no checkpoint available" error from the artifact registry when no checkpoint
was ever persisted.  In `VAE_SD_C.py` the reload is commented out:
finalization always succeeds and uses the last-step parameters, whether or not
a checkpoint was ever persisted. -/
theorem c5_amended {P : Type} (st : LoopState P) (k : Nat) (p : P) :
    finalizeSD st = .ok st.params
      ∧ (st.saves = [] → finalizeResnet st = .error .artifactNotFoundError)
      ∧ (st.saves.getLast? = some (k, p) → finalizeResnet st = .ok p) := by
  refine ⟨rfl, ?_, ?_⟩
  · intro h
    simp [finalizeResnet, load_best_checkpoint, h]
  · intro h
    simp [finalizeResnet, load_best_checkpoint, h]

/-- Witness for `c5_amended`: a state that never saved and a state whose most
recent save is `(4, 7)`. -/
theorem c5_amended_witness :
    finalizeResnet (⟨0, 5, [], [], []⟩ : LoopState Nat) = .error .artifactNotFoundError
      ∧ finalizeResnet (⟨0, 5, [], [(4, 7)], []⟩ : LoopState Nat) = .ok 7 :=
  ⟨(c5_amended ⟨0, 5, [], [], []⟩ 0 0).2.1 rfl,
   (c5_amended ⟨0, 5, [], [(4, 7)], []⟩ 4 7).2.2 rfl⟩

/-- **C6** counterexample.  The claim fails on `VAE_SD_C.py`: the setup phase
performs no validation of the noise-mode flag (it only binds it by partial
application), so setup succeeds for the unsupported mode `"Banana"`; the
`NotImplementedError` is raised only once `loss_fn` runs on a batch. -/
theorem c6_counterexample :
    setupSD "gelu" "adafactor" "Banana" = .ok "Banana"
      ∧ loss_fn_SD (fun _ _ img => (img, (), img)) (fun _ c => c) id
          (fun q _ _ => q) (fun _ _ _ => 0) "Banana" () ()
          [⟨[1], [1], [1], [1], [1]⟩] 0 = .error .notImplementedError := by
  constructor
  · decide
  · decide

/-- **C6** (corrected).  For a noise-mode string other than `"Fourier"` and
`"Pixel"`, `VAE_SD_C.py` does not fail at setup: configuration completes (only
the activation and optimizer names are validated there, the noise flag is just
bound by partial application), and the `NotImplementedError` is raised at the
first likelihood/loss invocation on a batch. -/
theorem c6_amended (mode : String) (hf : mode ≠ "Fourier") (hp : mode ≠ "Pixel") :
    setupSD "gelu" "adafactor" mode = .ok mode
      ∧ ∀ {Pa Rng Post : Type}
          (applyAE : Pa → Rng → List ℚ → List ℚ × Post × List ℚ)
          (logProb : Post → List ℚ → List ℚ) (priorLogProb : List ℚ → List ℚ)
          (convolve_kpsf : List ℚ → List ℚ → List ℚ → List ℚ)
          (fourierLL : List ℚ → List ℚ → List ℚ → ℚ)
          (params : Pa) (rngKey : Rng) (ex : ExampleSD) (rest : List ExampleSD)
          (regTerm : ℚ),
          loss_fn_SD applyAE logProb priorLogProb convolve_kpsf fourierLL mode
            params rngKey (ex :: rest) regTerm = .error .notImplementedError := by
  constructor
  · rfl
  · intro Pa Rng Post applyAE logProb priorLogProb convolve_kpsf fourierLL params
      rngKey ex rest regTerm
    have hterm : exampleTermsSD applyAE logProb priorLogProb convolve_kpsf fourierLL
        mode params rngKey ex = .error .notImplementedError := by
      unfold exampleTermsSD
      simp [hf, hp]
    unfold loss_fn_SD
    simp [List.mapM, List.mapM.loop, hterm, Except.bind, Except.map]
    rfl

/-- Witness for `c6_amended` at the unsupported mode `"Relu"`. -/
theorem c6_amended_witness :
    setupSD "gelu" "adafactor" "Relu" = .ok "Relu"
      ∧ loss_fn_SD (fun _ _ img => (img, (), img)) (fun _ c => c) id
          (fun q _ _ => q) (fun _ _ _ => 0) "Relu" () ()
          [⟨[1], [1], [1], [1], [1]⟩] 0 = .error .notImplementedError := by
  have h := c6_amended "Relu" (by decide) (by decide)
  exact ⟨h.1, h.2 (fun _ _ img => (img, (), img)) (fun _ c => c) id
    (fun q _ _ => q) (fun _ _ _ => 0) () () ⟨[1], [1], [1], [1], [1]⟩ [] 0⟩

theorem klDiagNormal_unit (loc : List ℝ) :
    klDiagNormal loc (List.replicate loc.length 1) = (loc.map (fun a => a ^ 2)).sum / 2 := by
  induction loc with
  | nil => simp [klDiagNormal]
  | cons a l ih =>
      rw [List.length_cons, List.replicate_succ]
      simp only [klDiagNormal, List.zipWith_cons_cons, List.sum_cons, List.map_cons] at ih ⊢
      rw [ih]
      simp [Real.log_one]
      ring

/-- **C3** counterexample.  In `VAE_Resnet_train_C.py`, take an encoder whose
posterior is the 1-dimensional standard normal `N(0, 1)` (so its divergence
from the zero-mean unit prior is `0`), a decoder+convolution whose predicted
observation is `[2]`, and unit batch noise.  The KL quantity of `loss_fn` is
then `2`, not the posterior-prior divergence `0`: the term scaled by
`reg_coeff` is a divergence involving the decoded observation distribution. -/
theorem c3_counterexample :
    klTermResnet (fun _ _ => (([0], [1]) : List ℝ × List ℝ)) (fun _ _ => [0])
        (fun _ _ => [2]) (fun d _ => d) ((), ()) () [⟨[0], [0], 1⟩] = [2]
      ∧ klDiagNormal [0] [1] = 0
      ∧ ([(2 : ℝ)] ≠ [klDiagNormal [0] [1]]) := by
  have h1 : klTermResnet (fun _ _ => (([0], [1]) : List ℝ × List ℝ)) (fun _ _ => [0])
      (fun _ _ => [2]) (fun d _ => d) ((), ()) () [⟨[0], [0], 1⟩] = [2] := by
    simp [klTermResnet, klExampleResnet, predExampleResnet, klDiagNormal, Real.log_one]
    norm_num
  have h2 : klDiagNormal [0] [1] = 0 := by
    simp [klDiagNormal, Real.log_one]
  refine ⟨h1, h2, ?_⟩
  rw [h2]
  norm_num

/-- **C3** (corrected).  In `VAE_SD_C.py` the KL term scaled by `reg_coeff` is
the summed log-density difference between the encoder's approximate posterior
and the fixed zero-mean prior at the drawn latent code — a posterior-vs-prior
divergence.  In `VAE_Resnet_train_C.py`, however, the KL term is the KL
divergence between the decoded observation distribution
`N(convolve(decode(z)), std)` and an image-space standard-normal prior: for
unit `std` it equals half the squared norm of the predicted observation, so it
involves (and varies with) the decoded observation, not the posterior. -/
theorem c3_amended {Pa Rng Post PE PD RngR : Type}
    (applyAE : Pa → Rng → List ℚ → List ℚ × Post × List ℚ)
    (logProb : Post → List ℚ → List ℚ)
    (priorLogProb : List ℚ → List ℚ)
    (params : Pa) (rngKey : Rng) (batch : List ExampleSD)
    (encApply : PE → List ℝ → List ℝ × List ℝ)
    (sample : RngR → List ℝ × List ℝ → List ℝ)
    (decApply : PD → List ℝ → List ℝ)
    (convolve : List ℝ → List ℝ → List ℝ)
    (paramsR : PE × PD) (rngKeyR : RngR) (img psf : List ℝ) :
    klTermSD applyAE logProb priorLogProb params rngKey batch
      = batch.map (fun ex =>
          (List.zipWith (fun a b => a - b)
            (logProb (applyAE params rngKey ex.image).2.1
              (applyAE params rngKey ex.image).2.2)
            (priorLogProb (applyAE params rngKey ex.image).2.2)).sum)
    ∧ klTermResnet encApply sample decApply convolve paramsR rngKeyR [⟨img, psf, 1⟩]
      = [((predExampleResnet encApply sample decApply convolve paramsR rngKeyR
            ⟨img, psf, 1⟩).map (fun a => a ^ 2)).sum / 2] := by
  constructor
  · rfl
  · simp only [klTermResnet, List.map_cons, List.map_nil, klExampleResnet]
    rw [klDiagNormal_unit]

theorem trainStep_ok {P : Type}
    (policy : Nat → ℚ → P → ℚ → List (Nat × P) → ℚ × List (Nat × P))
    (upd : Nat → P → ℚ × P) (totalSteps : Nat) (st : LoopState P) (k : Nat)
    (hc : totalSteps / 50 ≠ 0) :
    trainStep policy upd totalSteps st k =
      .ok ⟨(upd k st.params).2,
        (policy k (upd k st.params).1 (upd k st.params).2 st.best st.saves).1,
        st.losses ++ [(upd k st.params).1],
        (policy k (upd k st.params).1 (upd k st.params).2 st.best st.saves).2,
        if k % (totalSteps / 50) = 0 then st.evalSteps ++ [k] else st.evalSteps⟩ := by
  unfold trainStep pyMod
  rw [if_neg hc]
  by_cases hk : k % (totalSteps / 50) = 0 <;>
    simp [hk, Bind.bind, Except.bind, pure, Except.pure]

theorem runLoop_cadence_zero {P : Type}
    (policy : Nat → ℚ → P → ℚ → List (Nat × P) → ℚ × List (Nat × P))
    (upd : Nat → P → ℚ × P) (totalSteps : Nat) (p0 : P)
    (hc : totalSteps / 50 = 0) (h1 : 1 ≤ totalSteps) :
    runLoop policy upd totalSteps p0 = .error .zeroDivisionError := by
  obtain ⟨m, rfl⟩ : ∃ m, totalSteps = m + 1 := ⟨totalSteps - 1, by omega⟩
  unfold runLoop
  rw [show List.range' 1 (m + 1) = 1 :: List.range' 2 m from rfl]
  unfold runSteps
  have hstep : trainStep policy upd (m + 1) (initLoopState p0) 1
      = .error .zeroDivisionError := by
    unfold trainStep pyMod
    rw [if_pos hc]
    rfl
  rw [hstep]
  rfl

theorem runSteps_evalSteps {P : Type}
    (policy : Nat → ℚ → P → ℚ → List (Nat × P) → ℚ × List (Nat × P))
    (upd : Nat → P → ℚ × P) (totalSteps : Nat) (hc : totalSteps / 50 ≠ 0) :
    ∀ (steps : List Nat) (st : LoopState P),
      ∃ st', runSteps policy upd totalSteps steps st = .ok st'
        ∧ st'.evalSteps = st.evalSteps
            ++ steps.filter (fun k => decide (k % (totalSteps / 50) = 0)) := by
  intro steps
  induction steps with
  | nil => exact fun st => ⟨st, rfl, by simp⟩
  | cons k ks ih =>
      intro st
      rw [show runSteps policy upd totalSteps (k :: ks) st
          = (trainStep policy upd totalSteps st k).bind (runSteps policy upd totalSteps ks)
          from rfl]
      rw [trainStep_ok policy upd totalSteps st k hc]
      obtain ⟨st', h3, h4⟩ := ih ⟨(upd k st.params).2,
        (policy k (upd k st.params).1 (upd k st.params).2 st.best st.saves).1,
        st.losses ++ [(upd k st.params).1],
        (policy k (upd k st.params).1 (upd k st.params).2 st.best st.saves).2,
        if k % (totalSteps / 50) = 0 then st.evalSteps ++ [k] else st.evalSteps⟩
      refine ⟨st', by simpa [Except.bind] using h3, ?_⟩
      rw [h4]
      by_cases hk : k % (totalSteps / 50) = 0 <;>
        simp [hk, List.filter_cons, List.append_assoc]

theorem runSteps_saves_inv {P : Type}
    (policy : Nat → ℚ → P → ℚ → List (Nat × P) → ℚ × List (Nat × P))
    (hpol : ∀ (step : Nat) (loss : ℚ) (p : P) (best : ℚ) (saves : List (Nat × P)),
      (policy step loss p best saves).2 = saves
        ∨ (policy step loss p best saves).2 = saves ++ [(step, p)])
    (upd : Nat → P → ℚ × P) (totalSteps : Nat) (p0 : P) (hc : totalSteps / 50 ≠ 0) :
    ∀ (n m : Nat) (st : LoopState P),
      st.params = paramsAt upd p0 m →
      st.losses = (List.range' 1 m).map (fun j => (upd j (paramsAt upd p0 (j - 1))).1) →
      (∀ q ∈ st.saves, 1 ≤ q.1 ∧ q.1 ≤ m ∧ q.2 = paramsAt upd p0 q.1) →
      ∀ st', runSteps policy upd totalSteps (List.range' (m + 1) n) st = .ok st' →
        st'.params = paramsAt upd p0 (m + n)
          ∧ st'.losses
            = (List.range' 1 (m + n)).map (fun j => (upd j (paramsAt upd p0 (j - 1))).1)
          ∧ (∀ q ∈ st'.saves, 1 ≤ q.1 ∧ q.1 ≤ m + n ∧ q.2 = paramsAt upd p0 q.1) := by
  intro n
  induction n with
  | zero =>
      intro m st h1 h2 h3 st' hrun
      rw [show List.range' (m + 1) 0 = [] from rfl] at hrun
      rw [show runSteps policy upd totalSteps [] st = .ok st from rfl] at hrun
      injection hrun with hrun
      subst hrun
      exact ⟨h1, h2, h3⟩
  | succ n ih =>
      intro m st h1 h2 h3 st' hrun
      rw [show List.range' (m + 1) (n + 1) = (m + 1) :: List.range' (m + 2) n from rfl] at hrun
      rw [show runSteps policy upd totalSteps ((m + 1) :: List.range' (m + 2) n) st
          = (trainStep policy upd totalSteps st (m + 1)).bind
            (runSteps policy upd totalSteps (List.range' (m + 2) n)) from rfl] at hrun
      rw [trainStep_ok policy upd totalSteps st (m + 1) hc] at hrun
      have hrun' : runSteps policy upd totalSteps (List.range' (m + 2) n)
          ⟨(upd (m + 1) st.params).2,
            (policy (m + 1) (upd (m + 1) st.params).1 (upd (m + 1) st.params).2
              st.best st.saves).1,
            st.losses ++ [(upd (m + 1) st.params).1],
            (policy (m + 1) (upd (m + 1) st.params).1 (upd (m + 1) st.params).2
              st.best st.saves).2,
            if (m + 1) % (totalSteps / 50) = 0 then st.evalSteps ++ [m + 1]
            else st.evalSteps⟩ = .ok st' := hrun
      have hm : m + 2 = (m + 1) + 1 := rfl
      rw [hm] at hrun'
      have hinv := ih (m + 1) _ ?_ ?_ ?_ st' hrun'
      · have hmn : m + 1 + n = m + (n + 1) := by omega
        rw [hmn] at hinv
        exact hinv
      · show (upd (m + 1) st.params).2 = paramsAt upd p0 (m + 1)
        rw [h1]
        rfl
      · show st.losses ++ [(upd (m + 1) st.params).1] = _
        rw [h1, h2, List.range'_concat 1 m]
        rw [List.map_append]
        have he : (upd (1 + 1 * m) (paramsAt upd p0 (1 + 1 * m - 1))).1
            = (upd (m + 1) (paramsAt upd p0 m)).1 := by
          have h5 : 1 + 1 * m = m + 1 := by omega
          rw [h5]
          simp
        simp [he, Nat.add_comm]
      · intro q hq
        rcases hpol (m + 1) (upd (m + 1) st.params).1 (upd (m + 1) st.params).2
            st.best st.saves with hs | hs
        · rw [hs] at hq
          obtain ⟨ha, hb, hcq⟩ := h3 q hq
          exact ⟨ha, by omega, hcq⟩
        · rw [hs] at hq
          rcases List.mem_append.mp hq with hq | hq
          · obtain ⟨ha, hb, hcq⟩ := h3 q hq
            exact ⟨ha, by omega, hcq⟩
          · have hq' : q = (m + 1, (upd (m + 1) st.params).2) := by
              simpa using hq
            subst hq'
            refine ⟨by omega, by omega, ?_⟩
            show (upd (m + 1) st.params).2 = paramsAt upd p0 (m + 1)
            rw [h1]
            rfl

theorem runLoop_saves_characterization {P : Type}
    (policy : Nat → ℚ → P → ℚ → List (Nat × P) → ℚ × List (Nat × P))
    (hpol : ∀ (step : Nat) (loss : ℚ) (p : P) (best : ℚ) (saves : List (Nat × P)),
      (policy step loss p best saves).2 = saves
        ∨ (policy step loss p best saves).2 = saves ++ [(step, p)])
    (upd : Nat → P → ℚ × P) (totalSteps : Nat) (p0 : P) :
    ∀ st', runLoop policy upd totalSteps p0 = .ok st' →
      ∀ k p, (k, p) ∈ st'.saves →
        1 ≤ k ∧ k ≤ totalSteps ∧ p = (upd k (paramsAt upd p0 (k - 1))).2
          ∧ st'.losses[k - 1]? = some (upd k (paramsAt upd p0 (k - 1))).1 := by
  intro st' hrun k p hmem
  by_cases hc : totalSteps / 50 = 0
  · by_cases h1 : 1 ≤ totalSteps
    · rw [runLoop_cadence_zero policy upd totalSteps p0 hc h1] at hrun
      cases hrun
    · have h0 : totalSteps = 0 := by omega
      subst h0
      rw [show runLoop policy upd 0 p0 = .ok (initLoopState p0) from rfl] at hrun
      injection hrun with hrun
      rw [← hrun] at hmem
      cases hmem
  · have hrun' : runSteps policy upd totalSteps (List.range' (0 + 1) totalSteps)
        (initLoopState p0) = .ok st' := hrun
    obtain ⟨hp, hl, hs⟩ := runSteps_saves_inv policy hpol upd totalSteps p0 hc
      totalSteps 0 (initLoopState p0) rfl (by simp [initLoopState])
      (by simp [initLoopState]) st' hrun'
    obtain ⟨hk1, hk2, hkp⟩ := hs (k, p) hmem
    have hk2' : k ≤ totalSteps := by omega
    refine ⟨hk1, hk2', ?_, ?_⟩
    · obtain ⟨j, rfl⟩ : ∃ j, k = j + 1 := ⟨k - 1, by omega⟩
      simpa using hkp
    · rw [hl, List.getElem?_map]
      have hlt : k - 1 < 0 + totalSteps := by omega
      rw [List.getElem?_range' 1 1 hlt]
      have hk : 1 + 1 * (k - 1) = k := by omega
      rw [hk]
      rfl

theorem checkpointStepResnet_saves {P : Type} :
    ∀ (step : Nat) (loss : ℚ) (p : P) (best : ℚ) (saves : List (Nat × P)),
      (checkpointStepResnet step loss p best saves).2 = saves
        ∨ (checkpointStepResnet step loss p best saves).2 = saves ++ [(step, p)] := by
  intro step loss p best saves
  unfold checkpointStepResnet
  by_cases h1 : loss < best <;> by_cases h2 : loss < 1 <;> simp [h1, h2]

theorem checkpointStepSD_saves {P : Type} :
    ∀ (step : Nat) (loss : ℚ) (p : P) (best : ℚ) (saves : List (Nat × P)),
      (checkpointStepSD step loss p best saves).2 = saves
        ∨ (checkpointStepSD step loss p best saves).2 = saves ++ [(step, p)] := by
  intro step loss p best saves
  unfold checkpointStepSD
  by_cases h1 : loss < best <;> simp [h1]

/-- **C10** (confirmed).  In both training scripts, whenever a checkpoint is
persisted at step `k`, the persisted parameter tree is the post-update tree
returned by that step's `update` call — `(upd k (paramsAt (k-1))).2`, one
gradient step past `paramsAt (k-1)` — while the loss that triggered the save
(the one recorded at step `k` in the trace) was computed by `update` with
respect to the pre-update tree `paramsAt (k-1)`. -/
theorem c10_saved_params_post_update {P : Type}
    (upd : Nat → P → ℚ × P) (totalSteps : Nat) (p0 : P) :
    (∀ st', runLoopResnet upd totalSteps p0 = .ok st' →
      ∀ k p, (k, p) ∈ st'.saves →
        1 ≤ k ∧ k ≤ totalSteps ∧ p = (upd k (paramsAt upd p0 (k - 1))).2
          ∧ st'.losses[k - 1]? = some (upd k (paramsAt upd p0 (k - 1))).1)
    ∧ (∀ st', runLoopSD upd totalSteps p0 = .ok st' →
      ∀ k p, (k, p) ∈ st'.saves →
        1 ≤ k ∧ k ≤ totalSteps ∧ p = (upd k (paramsAt upd p0 (k - 1))).2
          ∧ st'.losses[k - 1]? = some (upd k (paramsAt upd p0 (k - 1))).1) :=
  ⟨runLoop_saves_characterization checkpointStepResnet checkpointStepResnet_saves
      upd totalSteps p0,
   runLoop_saves_characterization checkpointStepSD checkpointStepSD_saves
      upd totalSteps p0⟩

/-- **C7** counterexample.  The claim fails on both scripts: with
`total_steps = 10` (so `total_steps // 50 = 0`) the evaluation-cadence test
`step % (config.steps // 50)` raises `ZeroDivisionError` at the very first
training step — the loop does not run to completion. -/
theorem c7_counterexample :
    runLoopSD (fun _ n => ((5 : ℚ), n + 1)) 10 (0 : Nat) = .error .zeroDivisionError
      ∧ runLoopResnet (fun _ n => ((5 : ℚ), n + 1)) 10 (0 : Nat)
        = .error .zeroDivisionError := by
  constructor
  · decide
  · decide

/-- **C7** (corrected).  Evaluation triggers on steps that are multiples of
`total_steps // 50`; but when `total_steps // 50 = 0` (i.e. `total_steps < 50`
with at least one step) the training loop does not simply skip evaluation — it
raises `ZeroDivisionError` at the first step (`step % 0` in Python), so the
degenerate configuration crashes instead of running all steps to completion.
When the cadence is nonzero the loop completes and evaluation happens exactly
at the multiples of the cadence. -/
theorem c7_eval_cadence {P : Type} (upd : Nat → P → ℚ × P) (totalSteps : Nat) (p0 : P) :
    (totalSteps / 50 = 0 → 1 ≤ totalSteps →
      runLoopResnet upd totalSteps p0 = .error .zeroDivisionError
        ∧ runLoopSD upd totalSteps p0 = .error .zeroDivisionError)
    ∧ (totalSteps / 50 ≠ 0 →
      (∃ st, runLoopResnet upd totalSteps p0 = .ok st
          ∧ st.evalSteps = (List.range' 1 totalSteps).filter
              (fun k => decide (k % (totalSteps / 50) = 0)))
        ∧ (∃ st, runLoopSD upd totalSteps p0 = .ok st
          ∧ st.evalSteps = (List.range' 1 totalSteps).filter
              (fun k => decide (k % (totalSteps / 50) = 0)))) := by
  constructor
  · intro hc h1
    exact ⟨runLoop_cadence_zero checkpointStepResnet upd totalSteps p0 hc h1,
      runLoop_cadence_zero checkpointStepSD upd totalSteps p0 hc h1⟩
  · intro hc
    constructor
    · obtain ⟨st', ha, hb⟩ := runSteps_evalSteps checkpointStepResnet upd totalSteps hc
        (List.range' 1 totalSteps) (initLoopState p0)
      exact ⟨st', ha, by simpa [initLoopState] using hb⟩
    · obtain ⟨st', ha, hb⟩ := runSteps_evalSteps checkpointStepSD upd totalSteps hc
        (List.range' 1 totalSteps) (initLoopState p0)
      exact ⟨st', ha, by simpa [initLoopState] using hb⟩

/-- A concrete update collaborator for witnessing the loop theorems: constant
zero loss, parameters counting the performed update steps. -/
def updWitness : Nat → Nat → ℚ × Nat := fun _ n => (0, n + 1)

/-- The loop state reached by `updWitness` after 50 steps with cadence 1. -/
def stWitness : LoopState Nat :=
  ⟨50, 0, List.replicate 50 0, [(1, 1)], List.range' 1 50⟩

/-- Witness for `c7_eval_cadence` at `totalSteps = 10` (crash) and
`totalSteps = 50` (completion with evaluation at every step). -/
theorem c7_eval_cadence_witness :
    (runLoopResnet updWitness 10 0 = .error .zeroDivisionError
      ∧ runLoopSD updWitness 10 0 = .error .zeroDivisionError)
    ∧ ((∃ st, runLoopResnet updWitness 50 0 = .ok st
          ∧ st.evalSteps = (List.range' 1 50).filter (fun k => decide (k % (50 / 50) = 0)))
      ∧ (∃ st, runLoopSD updWitness 50 0 = .ok st
          ∧ st.evalSteps = (List.range' 1 50).filter (fun k => decide (k % (50 / 50) = 0)))) :=
  ⟨(c7_eval_cadence updWitness 10 0).1 (by decide) (by decide),
   (c7_eval_cadence updWitness 50 0).2 (by decide)⟩

/-- Witness for `c10_saved_params_post_update`: in a 50-step run of either
loop under `updWitness`, the single persisted checkpoint `(1, 1)` holds the
post-update parameters `1` of step 1, while the recorded step-1 loss was
computed from the pre-update parameters `0`. -/
theorem c10_saved_params_witness :
    (1 ≤ 1 ∧ 1 ≤ 50 ∧ (1 : Nat) = (updWitness 1 (paramsAt updWitness 0 (1 - 1))).2
        ∧ stWitness.losses[1 - 1]? = some (updWitness 1 (paramsAt updWitness 0 (1 - 1))).1)
      ∧ (1 ≤ 1 ∧ 1 ≤ 50 ∧ (1 : Nat) = (updWitness 1 (paramsAt updWitness 0 (1 - 1))).2
        ∧ stWitness.losses[1 - 1]? = some (updWitness 1 (paramsAt updWitness 0 (1 - 1))).1) :=
  ⟨(c10_saved_params_post_update updWitness 50 0).1 stWitness (by decide) 1 1 (by decide),
   (c10_saved_params_post_update updWitness 50 0).2 stWitness (by decide) 1 1 (by decide)⟩
